import Mathlib

/-!
Verification of the libmonado-rs wrapper (src/lib.rs), a safe Rust wrapper
around the libmonado C ABI. The foreign runtime is modelled as an
environment of response functions; every wrapper operation is embedded as a
pure function returning the list of foreign calls it issues together with
its result. Machine integers are modelled as Nat (with explicit wrapping
where the source casts), C strings as lists of byte values.
-/

namespace Libmonado

/-- Result codes for operations (enum MndResult, repr(i32)): negative are
errors, zero is success. -/
inductive MndResult where
  | Success
  | ErrorInvalidVersion
  | ErrorInvalidValue
  | ErrorConnectingFailed
  | ErrorOperationFailed
deriving DecidableEq, Repr

/-- The repr(i32) discriminant mapping declared on MndResult: the only
integer values the enum can hold are 0, -1, -2, -3, -4. Any other integer
has no representation (reading one across the FFI boundary is undefined
behaviour in the source, not a mapping to some error). -/
def MndResult.ofInt (z : Int) : Option MndResult :=
  if z = 0 then some .Success
  else if z = -1 then some .ErrorInvalidVersion
  else if z = -2 then some .ErrorInvalidValue
  else if z = -3 then some .ErrorConnectingFailed
  else if z = -4 then some .ErrorOperationFailed
  else none

/-- MndResult::to_result: Success becomes Ok(()), everything else Err(self). -/
def MndResult.to_result (r : MndResult) : Except MndResult Unit :=
  if r = .Success then .ok () else .error r

/-- One foreign entry-point invocation, with the arguments the wrapper
passes (role names and client ids as byte lists / naturals). Traces of
these record the order of foreign calls a wrapper operation issues. -/
inductive Call where
  | getVersion
  | rootCreate
  | rootDestroy
  | updateClientList
  | getNumberClients
  | getClientIdAtIndex (index : Nat)
  | getClientName (clientId : Nat)
  | getClientState (clientId : Nat)
  | setClientPrimary (clientId : Nat)
  | setClientFocused (clientId : Nat)
  | toggleClientIoActive (clientId : Nat)
  | getDeviceCount
  | getDeviceInfo (deviceIndex : Nat)
  | getDeviceFromRole (roleName : List Nat)
deriving DecidableEq, Repr

/-- UTF-8 validity of a byte sequence, as checked by CStr::to_str in the
source (Rust std UTF-8 validation: continuation ranges, no overlongs, no
surrogates, max U+10FFFF). -/
def validUtf8 : List Nat → Bool
  | [] => true
  | b0 :: rest =>
    if b0 < 0x80 then validUtf8 rest
    else if 0xC2 ≤ b0 ∧ b0 ≤ 0xDF then
      match rest with
      | b1 :: rest2 => decide (0x80 ≤ b1 ∧ b1 ≤ 0xBF) && validUtf8 rest2
      | [] => false
    else if b0 = 0xE0 then
      match rest with
      | b1 :: b2 :: rest3 =>
        decide (0xA0 ≤ b1 ∧ b1 ≤ 0xBF) && decide (0x80 ≤ b2 ∧ b2 ≤ 0xBF) && validUtf8 rest3
      | _ => false
    else if (0xE1 ≤ b0 ∧ b0 ≤ 0xEC) ∨ b0 = 0xEE ∨ b0 = 0xEF then
      match rest with
      | b1 :: b2 :: rest3 =>
        decide (0x80 ≤ b1 ∧ b1 ≤ 0xBF) && decide (0x80 ≤ b2 ∧ b2 ≤ 0xBF) && validUtf8 rest3
      | _ => false
    else if b0 = 0xED then
      match rest with
      | b1 :: b2 :: rest3 =>
        decide (0x80 ≤ b1 ∧ b1 ≤ 0x9F) && decide (0x80 ≤ b2 ∧ b2 ≤ 0xBF) && validUtf8 rest3
      | _ => false
    else if b0 = 0xF0 then
      match rest with
      | b1 :: b2 :: b3 :: rest4 =>
        decide (0x90 ≤ b1 ∧ b1 ≤ 0xBF) && decide (0x80 ≤ b2 ∧ b2 ≤ 0xBF) &&
          decide (0x80 ≤ b3 ∧ b3 ≤ 0xBF) && validUtf8 rest4
      | _ => false
    else if 0xF1 ≤ b0 ∧ b0 ≤ 0xF3 then
      match rest with
      | b1 :: b2 :: b3 :: rest4 =>
        decide (0x80 ≤ b1 ∧ b1 ≤ 0xBF) && decide (0x80 ≤ b2 ∧ b2 ≤ 0xBF) &&
          decide (0x80 ≤ b3 ∧ b3 ≤ 0xBF) && validUtf8 rest4
      | _ => false
    else if b0 = 0xF4 then
      match rest with
      | b1 :: b2 :: b3 :: rest4 =>
        decide (0x80 ≤ b1 ∧ b1 ≤ 0x8F) && decide (0x80 ≤ b2 ∧ b2 ≤ 0xBF) &&
          decide (0x80 ≤ b3 ∧ b3 ≤ 0xBF) && validUtf8 rest4
      | _ => false
    else false

/-- CString::new on the bytes of a Rust str: fails (None) exactly when some
byte is an interior NUL; otherwise returns the bytes unchanged. -/
def cstringNew (bytes : List Nat) : Option (List Nat) :=
  if 0 ∈ bytes then none else some bytes

/-- FlagSet::contains from the flagset crate: self.bits & flag.bits == flag.bits. -/
def containsFlag (bits flag : Nat) : Bool :=
  bits &&& flag == flag

/-- The six documented ClientState flag values (bits of a u32). -/
def ClientPrimaryApp : Nat := 1
def ClientSessionActive : Nat := 2
def ClientSessionVisible : Nat := 4
def ClientSessionFocused : Nat := 8
def ClientSessionOverlay : Nat := 16
def ClientIoActive : Nat := 32

/-- Environment for Monado::create: whether the dynamic library loads with
all symbols, the (major, minor, patch) version it reports, and the result
of mnd_root_create. -/
structure LoadEnv where
  loadOk : Bool
  version : Nat × Nat × Nat
  createResult : MndResult

/-- Responses of the loaded runtime library to each entry point the session
operations call. Each field gives the result code and the values the
entry point writes through its out parameters (names as byte lists). -/
structure Runtime where
  updateClientList : MndResult
  numberClients : MndResult × Nat
  clientIdAtIndex : Nat → MndResult × Nat
  clientName : Nat → MndResult × List Nat
  clientState : Nat → MndResult × Nat
  setPrimaryResult : Nat → MndResult
  setFocusedResult : Nat → MndResult
  toggleIoResult : Nat → MndResult
  deviceCount : MndResult × Nat
  deviceInfo : Nat → MndResult × Nat × List Nat
  deviceFromRole : List Nat → MndResult × Int

/-- VersionReq::parse("=1.0.0").matches(v) for a Version built by
Version::new (no prerelease): exact match on all three components. -/
def crate_api_version_matches (v : Nat × Nat × Nat) : Bool :=
  v == (1, 0, 0)

/-- A Client view: borrows the session (elided in the embedding) and holds
only the client id. -/
structure Client where
  id : Nat
deriving DecidableEq, Repr

/-- A Device view: owned id and owned name (bytes of the decoded string). -/
structure Device where
  id : Nat
  name : List Nat
deriving DecidableEq, Repr

namespace Monado

/-- Monado::create: load the library (ConnectingFailed on failure), query
the version (InvalidVersion unless exactly 1.0.0), then mnd_root_create.
Returns the foreign calls issued and the construction outcome. -/
def create (env : LoadEnv) : List Call × Except MndResult Unit :=
  if env.loadOk = false then ([], .error .ErrorConnectingFailed)
  else if crate_api_version_matches env.version = false then
    ([Call.getVersion], .error .ErrorInvalidVersion)
  else ([Call.getVersion, Call.rootCreate], env.createResult.to_result)

/-- The index-lookup loop of Monado::clients: one
mnd_root_get_client_id_at_index call per index, aborting on the first
non-success result. -/
def clientsLoop (rt : Runtime) : List Nat → List Call × Except MndResult (List Client)
  | [] => ([], .ok [])
  | i :: rest =>
    match (rt.clientIdAtIndex i).1.to_result with
    | .error e => ([Call.getClientIdAtIndex i], .error e)
    | .ok _ =>
      (Call.getClientIdAtIndex i :: (clientsLoop rt rest).1,
       (clientsLoop rt rest).2.map (fun cs => ⟨(rt.clientIdAtIndex i).2⟩ :: cs))

/-- Monado::clients: refresh the client list, read the count, then one
id-at-index call per index in 0..count; any non-success aborts the whole
enumeration. -/
def clients (rt : Runtime) : List Call × Except MndResult (List Client) :=
  match rt.updateClientList.to_result with
  | .error e => ([Call.updateClientList], .error e)
  | .ok _ =>
    match (rt.numberClients).1.to_result with
    | .error e => ([Call.updateClientList, Call.getNumberClients], .error e)
    | .ok _ =>
      (Call.updateClientList :: Call.getNumberClients ::
        (clientsLoop rt (List.range (rt.numberClients).2)).1,
       (clientsLoop rt (List.range (rt.numberClients).2)).2)

/-- The info loop of Monado::devices: one mnd_root_get_device_info call per
index; a non-success result or an invalid UTF-8 name aborts. -/
def devicesLoop (rt : Runtime) : List Nat → List Call × Except MndResult (List Device)
  | [] => ([], .ok [])
  | i :: rest =>
    match (rt.deviceInfo i).1.to_result with
    | .error e => ([Call.getDeviceInfo i], .error e)
    | .ok _ =>
      if validUtf8 (rt.deviceInfo i).2.2 then
        (Call.getDeviceInfo i :: (devicesLoop rt rest).1,
         (devicesLoop rt rest).2.map
           (fun ds => ⟨(rt.deviceInfo i).2.1, (rt.deviceInfo i).2.2⟩ :: ds))
      else ([Call.getDeviceInfo i], .error .ErrorInvalidValue)

/-- Monado::devices: read the device count, then one info call per index in
0..count. -/
def devices (rt : Runtime) : List Call × Except MndResult (List Device) :=
  match (rt.deviceCount).1.to_result with
  | .error e => ([Call.getDeviceCount], .error e)
  | .ok _ =>
    (Call.getDeviceCount :: (devicesLoop rt (List.range (rt.deviceCount).2)).1,
     (devicesLoop rt (List.range (rt.deviceCount).2)).2)

/-- The `device_id as u32` cast in Monado::device_from_role: an i32 value
reinterpreted as a u32 (wrap modulo 2^32). -/
def intToU32 (z : Int) : Nat :=
  (z % (2 ^ 32)).toNat

/-- Monado::device_from_role: CString::new(role_name).unwrap() (None below
models the panic on an interior NUL), then mnd_root_get_device_from_role,
then mnd_root_get_device_info at the returned id cast to u32, then UTF-8
validation of the returned name. -/
def device_from_role (rt : Runtime) (roleName : List Nat) :
    Option (List Call × Except MndResult Device) :=
  match cstringNew roleName with
  | none => none
  | some cName =>
    match (rt.deviceFromRole cName).1.to_result with
    | .error e => some ([Call.getDeviceFromRole cName], .error e)
    | .ok _ =>
      match (rt.deviceInfo (intToU32 (rt.deviceFromRole cName).2)).1.to_result with
      | .error e =>
        some ([Call.getDeviceFromRole cName,
               Call.getDeviceInfo (intToU32 (rt.deviceFromRole cName).2)], .error e)
      | .ok _ =>
        some ([Call.getDeviceFromRole cName,
               Call.getDeviceInfo (intToU32 (rt.deviceFromRole cName).2)],
          if validUtf8 (rt.deviceInfo (intToU32 (rt.deviceFromRole cName).2)).2.2 then
            .ok ⟨(rt.deviceInfo (intToU32 (rt.deviceFromRole cName).2)).2.1,
                 (rt.deviceInfo (intToU32 (rt.deviceFromRole cName).2)).2.2⟩
          else .error .ErrorInvalidValue)

end Monado

namespace Client

/-- Client::name: fetch the C string pointer, validate as UTF-8, copy; the
returned String has exactly the fetched bytes on success. -/
def name (rt : Runtime) (c : Client) : List Call × Except MndResult (List Nat) :=
  ([Call.getClientName c.id],
    match (rt.clientName c.id).1.to_result with
    | .error e => .error e
    | .ok _ =>
      if validUtf8 (rt.clientName c.id).2 then .ok (rt.clientName c.id).2
      else .error .ErrorInvalidValue)

/-- Client::state: fetch the raw u32 and wrap it with
FlagSet::new_unchecked, which keeps the bits exactly as written. -/
def state (rt : Runtime) (c : Client) : List Call × Except MndResult Nat :=
  ([Call.getClientState c.id],
    match (rt.clientState c.id).1.to_result with
    | .error e => .error e
    | .ok _ => .ok (rt.clientState c.id).2)

/-- Client::set_primary: one mnd_root_set_client_primary call. -/
def set_primary (rt : Runtime) (c : Client) : List Call × Except MndResult Unit :=
  ([Call.setClientPrimary c.id], (rt.setPrimaryResult c.id).to_result)

/-- Client::set_focused: one mnd_root_set_client_focused call. -/
def set_focused (rt : Runtime) (c : Client) : List Call × Except MndResult Unit :=
  ([Call.setClientFocused c.id], (rt.setFocusedResult c.id).to_result)

/-- Client::set_io_active: read the current state; issue the toggle only
when the io-active flag differs from the requested value. -/
def set_io_active (rt : Runtime) (c : Client) (active : Bool) :
    List Call × Except MndResult Unit :=
  match (Client.state rt c).2 with
  | .error e => ((Client.state rt c).1, .error e)
  | .ok st =>
    if containsFlag st ClientIoActive != active then
      ((Client.state rt c).1 ++ [Call.toggleClientIoActive c.id],
       (rt.toggleIoResult c.id).to_result)
    else ((Client.state rt c).1, .ok ())

end Client

/-- One session-level operation, used to describe an arbitrary sequence of
operations performed between construction and drop. -/
inductive Op where
  | opClients
  | opDevices
  | opDeviceFromRole (roleName : List Nat)
  | opClientName (cid : Nat)
  | opClientState (cid : Nat)
  | opSetPrimary (cid : Nat)
  | opSetFocused (cid : Nat)
  | opSetIoActive (cid : Nat) (active : Bool)

/-- The foreign calls an operation issues against the runtime. -/
def Op.trace (rt : Runtime) : Op → List Call
  | .opClients => (Monado.clients rt).1
  | .opDevices => (Monado.devices rt).1
  | .opDeviceFromRole roleName =>
    ((Monado.device_from_role rt roleName).map Prod.fst).getD []
  | .opClientName cid => (Client.name rt ⟨cid⟩).1
  | .opClientState cid => (Client.state rt ⟨cid⟩).1
  | .opSetPrimary cid => (Client.set_primary rt ⟨cid⟩).1
  | .opSetFocused cid => (Client.set_focused rt ⟨cid⟩).1
  | .opSetIoActive cid b => (Client.set_io_active rt ⟨cid⟩ b).1

/-- Whether an Except value is a success. -/
def isOkE {ε α : Type} : Except ε α → Bool
  | .ok _ => true
  | .error _ => false

/-- The complete foreign-call trace of one session lifetime: the
construction calls, then (only if construction succeeded) the calls of an
arbitrary sequence of operations, then the single mnd_root_destroy issued
by Drop when the Monado value goes out of scope. A failed construction
returns no Monado value, so Drop never runs. -/
def sessionTrace (env : LoadEnv) (rt : Runtime) (ops : List Op) : List Call :=
  match (Monado.create env).2 with
  | .error _ => (Monado.create env).1
  | .ok _ => (Monado.create env).1 ++ (ops.map (Op.trace rt)).flatten ++ [Call.rootDestroy]

/-- The interference-free runtime whose single client has state bits σ and
whose commands all succeed: no other actor mutates the state between the
calls of the wrapper. -/
def rtOfState (σ : Nat) : Runtime where
  updateClientList := .Success
  numberClients := (.Success, 1)
  clientIdAtIndex := fun _ => (.Success, 0)
  clientName := fun _ => (.Success, [])
  clientState := fun _ => (.Success, σ)
  setPrimaryResult := fun _ => .Success
  setFocusedResult := fun _ => .Success
  toggleIoResult := fun _ => .Success
  deviceCount := (.Success, 0)
  deviceInfo := fun _ => (.Success, 0, [])
  deviceFromRole := fun _ => (.Success, 0)

/-- How many mnd_root_toggle_client_io_active calls one
Client::set_io_active call issues against the interference-free runtime in
state σ. -/
def ioToggleCount (σ : Nat) (c : Client) (active : Bool) : Nat :=
  (Client.set_io_active (rtOfState σ) c active).1.count (Call.toggleClientIoActive c.id)

/-- Modelled from the spec: the underlying runtime primitive is a toggle of
the io-active flag, so with no external interference the client state after
one set_io_active call has bit 5 flipped exactly when the wrapper issued
the toggle command. -/
def ioNextState (σ : Nat) (active : Bool) : Nat :=
  if containsFlag σ ClientIoActive != active then σ ^^^ ClientIoActive else σ

/-- A runtime reporting two clients that both carry client id 7. -/
def rtDup : Runtime where
  updateClientList := .Success
  numberClients := (.Success, 2)
  clientIdAtIndex := fun _ => (.Success, 7)
  clientName := fun _ => (.Success, [])
  clientState := fun _ => (.Success, 0)
  setPrimaryResult := fun _ => .Success
  setFocusedResult := fun _ => .Success
  toggleIoResult := fun _ => .Success
  deviceCount := (.Success, 0)
  deviceInfo := fun _ => (.Success, 0, [])
  deviceFromRole := fun _ => (.Success, 0)

/-- A runtime reporting three clients and three devices whose index-lookup
and info calls fail at index 1. -/
def rtIdxFail : Runtime where
  updateClientList := .Success
  numberClients := (.Success, 3)
  clientIdAtIndex := fun i => if i = 1 then (.ErrorOperationFailed, 0) else (.Success, i)
  clientName := fun cid => if cid = 0 then (.Success, [255]) else (.Success, [104, 105])
  clientState := fun _ => (.Success, 37)
  setPrimaryResult := fun _ => .Success
  setFocusedResult := fun _ => .Success
  toggleIoResult := fun _ => .Success
  deviceCount := (.Success, 3)
  deviceInfo := fun i =>
    if i = 1 then (.ErrorConnectingFailed, 0, []) else (.Success, i, [72, 77, 68])
  deviceFromRole := fun _ => (.Success, 0)

/-- A runtime whose client-list refresh call and device-count call fail. -/
def rtUpdFail : Runtime where
  updateClientList := .ErrorConnectingFailed
  numberClients := (.Success, 0)
  clientIdAtIndex := fun _ => (.Success, 0)
  clientName := fun _ => (.Success, [])
  clientState := fun _ => (.Success, 0)
  setPrimaryResult := fun _ => .Success
  setFocusedResult := fun _ => .Success
  toggleIoResult := fun _ => .Success
  deviceCount := (.ErrorInvalidValue, 0)
  deviceInfo := fun _ => (.Success, 0, [])
  deviceFromRole := fun _ => (.Success, 0)

/-- A runtime whose refresh call succeeds but whose client-count call
fails. -/
def rtCntFail : Runtime where
  updateClientList := .Success
  numberClients := (.ErrorOperationFailed, 0)
  clientIdAtIndex := fun _ => (.Success, 0)
  clientName := fun _ => (.Success, [])
  clientState := fun _ => (.Success, 0)
  setPrimaryResult := fun _ => .Success
  setFocusedResult := fun _ => .Success
  toggleIoResult := fun _ => .Success
  deviceCount := (.Success, 0)
  deviceInfo := fun _ => (.Success, 0, [])
  deviceFromRole := fun _ => (.Success, 0)

/-- A runtime with one device, id 5 and name "HMD-0", mapped to the role
"head"; every other role resolves to the out-of-range id -1, and the info
call at the corresponding wrapped index 2^32 - 1 fails with
ErrorOperationFailed. -/
def rtRoles : Runtime where
  updateClientList := .Success
  numberClients := (.Success, 0)
  clientIdAtIndex := fun _ => (.Success, 0)
  clientName := fun _ => (.Success, [])
  clientState := fun _ => (.Success, 0)
  setPrimaryResult := fun _ => .Success
  setFocusedResult := fun _ => .Success
  toggleIoResult := fun _ => .Success
  deviceCount := (.Success, 1)
  deviceInfo := fun i =>
    if i = 0 then (.Success, 5, [72, 77, 68, 45, 48]) else (.ErrorOperationFailed, 0, [])
  deviceFromRole := fun roleName =>
    if roleName = [104, 101, 97, 100] then (.Success, 0) else (.Success, -1)

/-! ## Helper lemmas -/

lemma to_result_success : MndResult.Success.to_result = .ok () := rfl

lemma to_result_error {r : MndResult} (h : r ≠ .Success) : r.to_result = .error r := by
  simp [MndResult.to_result, h]

lemma except_map_ok {ε α β : Type} (f : α → β) (a : α) :
    Except.map f (.ok a : Except ε α) = .ok (f a) := rfl

lemma except_map_error {ε α β : Type} (f : α → β) (e : ε) :
    Except.map f (.error e : Except ε α) = .error e := rfl

lemma containsFlag_two_pow (v k : Nat) : containsFlag v (2 ^ k) = v.testBit k := by
  unfold containsFlag
  rw [Nat.and_two_pow]
  cases h : v.testBit k
  · simpa using (Nat.two_pow_pos k).ne
  · simp

lemma containsFlag_bit5 (v : Nat) : containsFlag v ClientIoActive = v.testBit 5 :=
  containsFlag_two_pow v 5

lemma containsFlag_xor_bit5 (v : Nat) :
    containsFlag (v ^^^ ClientIoActive) ClientIoActive = !containsFlag v ClientIoActive := by
  rw [containsFlag_bit5, containsFlag_bit5, Nat.testBit_xor]
  cases h : v.testBit 5 <;> rfl

lemma rootDestroy_not_mem_create (env : LoadEnv) :
    Call.rootDestroy ∉ (Monado.create env).1 := by
  unfold Monado.create
  split
  · simp
  · split
    · simp
    · simp

lemma rootDestroy_not_mem_clientsLoop (rt : Runtime) (l : List Nat) :
    Call.rootDestroy ∉ (Monado.clientsLoop rt l).1 := by
  induction l with
  | nil => simp [Monado.clientsLoop]
  | cons i rest ih =>
    cases hr : (rt.clientIdAtIndex i).1.to_result with
    | error e => simp [Monado.clientsLoop, hr]
    | ok u => simp [Monado.clientsLoop, hr, ih]

lemma rootDestroy_not_mem_clients (rt : Runtime) :
    Call.rootDestroy ∉ (Monado.clients rt).1 := by
  cases h1 : rt.updateClientList.to_result with
  | error e => simp [Monado.clients, h1]
  | ok u =>
    cases h2 : (rt.numberClients).1.to_result with
    | error e => simp [Monado.clients, h1, h2]
    | ok v => simp [Monado.clients, h1, h2, rootDestroy_not_mem_clientsLoop]

lemma rootDestroy_not_mem_devicesLoop (rt : Runtime) (l : List Nat) :
    Call.rootDestroy ∉ (Monado.devicesLoop rt l).1 := by
  induction l with
  | nil => simp [Monado.devicesLoop]
  | cons i rest ih =>
    cases hr : (rt.deviceInfo i).1.to_result with
    | error e => simp [Monado.devicesLoop, hr]
    | ok u =>
      by_cases hv : validUtf8 (rt.deviceInfo i).2.2
      · simp [Monado.devicesLoop, hr, hv, ih]
      · simp [Monado.devicesLoop, hr, hv]

lemma rootDestroy_not_mem_devices (rt : Runtime) :
    Call.rootDestroy ∉ (Monado.devices rt).1 := by
  cases h1 : (rt.deviceCount).1.to_result with
  | error e => simp [Monado.devices, h1]
  | ok u => simp [Monado.devices, h1, rootDestroy_not_mem_devicesLoop]

lemma rootDestroy_not_mem_dfrTrace (rt : Runtime) (roleName : List Nat) :
    Call.rootDestroy ∉ ((Monado.device_from_role rt roleName).map Prod.fst).getD [] := by
  by_cases hn : 0 ∈ roleName
  · simp [Monado.device_from_role, cstringNew, hn]
  · cases h1 : (rt.deviceFromRole roleName).1.to_result with
    | error e => simp [Monado.device_from_role, cstringNew, hn, h1]
    | ok u =>
      cases h2 : (rt.deviceInfo (Monado.intToU32 (rt.deviceFromRole roleName).2)).1.to_result with
      | error e => simp [Monado.device_from_role, cstringNew, hn, h1, h2]
      | ok v =>
        by_cases hv : validUtf8 (rt.deviceInfo (Monado.intToU32 (rt.deviceFromRole roleName).2)).2.2
        · simp [Monado.device_from_role, cstringNew, hn, h1, h2, hv]
        · simp [Monado.device_from_role, cstringNew, hn, h1, h2, hv]

lemma rootDestroy_not_mem_setIoActive (rt : Runtime) (c : Client) (b : Bool) :
    Call.rootDestroy ∉ (Client.set_io_active rt c b).1 := by
  cases hr : (rt.clientState c.id).1.to_result with
  | error e => simp [Client.set_io_active, Client.state, hr]
  | ok u =>
    by_cases hb : containsFlag (rt.clientState c.id).2 ClientIoActive = b
    · simp [Client.set_io_active, Client.state, hr, hb]
    · simp [Client.set_io_active, Client.state, hr, hb]

lemma rootDestroy_not_mem_opTrace (rt : Runtime) (op : Op) :
    Call.rootDestroy ∉ Op.trace rt op := by
  cases op with
  | opClients => exact rootDestroy_not_mem_clients rt
  | opDevices => exact rootDestroy_not_mem_devices rt
  | opDeviceFromRole roleName => exact rootDestroy_not_mem_dfrTrace rt roleName
  | opClientName cid => simp [Op.trace, Client.name]
  | opClientState cid => simp [Op.trace, Client.state]
  | opSetPrimary cid => simp [Op.trace, Client.set_primary]
  | opSetFocused cid => simp [Op.trace, Client.set_focused]
  | opSetIoActive cid b => exact rootDestroy_not_mem_setIoActive rt ⟨cid⟩ b

lemma rootDestroy_not_mem_opsFlatten (rt : Runtime) (ops : List Op) :
    Call.rootDestroy ∉ (ops.map (Op.trace rt)).flatten := by
  intro h
  rcases List.mem_flatten.mp h with ⟨l, hl, hmem⟩
  rcases List.mem_map.mp hl with ⟨op, _, rfl⟩
  exact rootDestroy_not_mem_opTrace rt op hmem

/-! ## Claims -/

/-- Claim C1: a session whose construction succeeds issues exactly one
mnd_root_destroy call over its whole lifetime, whatever operations (failing
or not) happen in between; a construction that fails at any stage (load,
version check, or mnd_root_create) never issues a destroy call. -/
theorem session_destroy_exactly_once (env : LoadEnv) (rt : Runtime) (ops : List Op) :
    (sessionTrace env rt ops).count Call.rootDestroy =
      if isOkE (Monado.create env).2 = true then 1 else 0 := by
  unfold sessionTrace
  cases hres : (Monado.create env).2 with
  | error e =>
    simp [isOkE, List.count_eq_zero.mpr (rootDestroy_not_mem_create env)]
  | ok u =>
    simp [isOkE, List.count_append,
      List.count_eq_zero.mpr (rootDestroy_not_mem_create env),
      List.count_eq_zero.mpr (rootDestroy_not_mem_opsFlatten rt ops)]

/-- Claim C2: when the library loads but reports any version other than
exactly 1.0.0, Monado::create fails with ErrorInvalidVersion having issued
only the version query, so mnd_root_create is never called and no handle
exists. -/
theorem create_rejects_wrong_version (env : LoadEnv) (hload : env.loadOk = true)
    (hv : env.version ≠ (1, 0, 0)) :
    Monado.create env = ([Call.getVersion], .error .ErrorInvalidVersion) ∧
    Call.rootCreate ∉ (Monado.create env).1 := by
  have hm : crate_api_version_matches env.version = false := by
    unfold crate_api_version_matches
    exact beq_eq_false_iff_ne.mpr hv
  constructor
  · simp [Monado.create, hload, hm]
  · simp [Monado.create, hload, hm]

/-- Witness for C2 at the concrete version 1.0.1. -/
theorem create_rejects_wrong_version_witness :
    Monado.create ⟨true, (1, 0, 1), .Success⟩ =
      ([Call.getVersion], .error .ErrorInvalidVersion) :=
  (create_rejects_wrong_version ⟨true, (1, 0, 1), .Success⟩ rfl (by decide)).1

lemma clientsLoop_all_ok (rt : Runtime) (l : List Nat)
    (h : ∀ i ∈ l, (rt.clientIdAtIndex i).1 = .Success) :
    Monado.clientsLoop rt l =
      (l.map Call.getClientIdAtIndex,
       .ok (l.map (fun i => ⟨(rt.clientIdAtIndex i).2⟩))) := by
  induction l with
  | nil => rfl
  | cons i rest ih =>
    have hi : (rt.clientIdAtIndex i).1.to_result = .ok () := by
      rw [h i (List.mem_cons_self i rest)]; rfl
    simp [Monado.clientsLoop, hi, except_map_ok, ih (fun j hj => h j (List.mem_cons_of_mem i hj))]

/-- Claim C3 (amended): with every foreign call succeeding and the runtime
reporting N clients, clients() issues exactly one refresh call, then one
count call, then the N index lookups in index order, and yields exactly N
Client Views, the i-th carrying the id the runtime reported at index i
(those ids need not be pairwise distinct). -/
theorem clients_enumeration (rt : Runtime) (N : Nat)
    (hupd : rt.updateClientList = .Success)
    (hcnt : rt.numberClients = (.Success, N))
    (hidx : ∀ i, i < N → (rt.clientIdAtIndex i).1 = .Success) :
    Monado.clients rt =
      (Call.updateClientList :: Call.getNumberClients ::
        (List.range N).map Call.getClientIdAtIndex,
       .ok ((List.range N).map (fun i => ⟨(rt.clientIdAtIndex i).2⟩))) := by
  have h1 : rt.updateClientList.to_result = .ok () := by rw [hupd]; rfl
  have h2 : (rt.numberClients).1.to_result = .ok () := by rw [hcnt]; rfl
  have h3 : (rt.numberClients).2 = N := by rw [hcnt]
  have hall : ∀ i ∈ List.range N, (rt.clientIdAtIndex i).1 = .Success :=
    fun i hi => hidx i (List.mem_range.mp hi)
  simp [Monado.clients, h1, h2, h3, clientsLoop_all_ok rt (List.range N) hall]

/-- Witness for C3 (amended) on the concrete one-client runtime. -/
theorem clients_enumeration_witness :
    Monado.clients (rtOfState 0) =
      (Call.updateClientList :: Call.getNumberClients ::
        (List.range 1).map Call.getClientIdAtIndex,
       .ok ((List.range 1).map (fun i => ⟨((rtOfState 0).clientIdAtIndex i).2⟩))) :=
  clients_enumeration (rtOfState 0) 1 rfl rfl (fun _ _ => rfl)

/-- Counterexample for C3: a runtime reporting two clients that both carry
client id 7 makes clients() yield two views with equal, not distinct,
ClientIds. -/
theorem clients_duplicate_ids :
    (Monado.clients rtDup).2 = .ok [⟨7⟩, ⟨7⟩] ∧
    ¬ List.Pairwise (fun a b : Client => a.id ≠ b.id) [(⟨7⟩ : Client), ⟨7⟩] := by
  constructor
  · rfl
  · decide

lemma clientsLoop_fail (rt : Runtime) (n : Nat) :
    ∀ s i, s ≤ i → i < s + n →
      (∀ j, s ≤ j → j < i → (rt.clientIdAtIndex j).1 = .Success) →
      (rt.clientIdAtIndex i).1 ≠ .Success →
      (Monado.clientsLoop rt (List.range' s n)).2 = .error (rt.clientIdAtIndex i).1 := by
  induction n with
  | zero => intro s i hsi hin _ _; omega
  | succ m ih =>
    intro s i hsi hin hok hfail
    rcases Nat.eq_or_lt_of_le hsi with heq | hlt
    · subst heq
      have he : (rt.clientIdAtIndex s).1.to_result = .error (rt.clientIdAtIndex s).1 :=
        to_result_error hfail
      simp [List.range', Monado.clientsLoop, he]
    · have hs : (rt.clientIdAtIndex s).1.to_result = .ok () := by
        rw [hok s le_rfl hlt]; rfl
      have hrec := ih (s + 1) i hlt (by omega) (fun j hj1 hj2 => hok j (by omega) hj2) hfail
      simp [List.range', Monado.clientsLoop, hs, except_map_error, hrec]

lemma devicesLoop_fail (rt : Runtime) (n : Nat) :
    ∀ s i, s ≤ i → i < s + n →
      (∀ j, s ≤ j → j < i →
        (rt.deviceInfo j).1 = .Success ∧ validUtf8 (rt.deviceInfo j).2.2 = true) →
      (rt.deviceInfo i).1 ≠ .Success →
      (Monado.devicesLoop rt (List.range' s n)).2 = .error (rt.deviceInfo i).1 := by
  induction n with
  | zero => intro s i hsi hin _ _; omega
  | succ m ih =>
    intro s i hsi hin hok hfail
    rcases Nat.eq_or_lt_of_le hsi with heq | hlt
    · subst heq
      have he : (rt.deviceInfo s).1.to_result = .error (rt.deviceInfo s).1 :=
        to_result_error hfail
      simp [List.range', Monado.devicesLoop, he]
    · have hs : (rt.deviceInfo s).1.to_result = .ok () := by
        rw [(hok s le_rfl hlt).1]; rfl
      have hv : validUtf8 (rt.deviceInfo s).2.2 = true := (hok s le_rfl hlt).2
      have hrec := ih (s + 1) i hlt (by omega) (fun j hj1 hj2 => hok j (by omega) hj2) hfail
      simp [List.range', Monado.devicesLoop, hs, hv, except_map_error, hrec]

/-- Claim C4: whichever foreign call of the fixed enumeration sequence is
the first to return a non-success code — the refresh call, the count call,
or the index-lookup call at position i for clients(); the count call or the
info call at position i for devices() — the whole operation returns exactly
that error: no partial or truncated list is exposed. -/
theorem enumeration_aborts_on_failure (rt : Runtime) (i : Nat) :
    (rt.updateClientList ≠ .Success →
      (Monado.clients rt).2 = .error rt.updateClientList) ∧
    (rt.updateClientList = .Success → (rt.numberClients).1 ≠ .Success →
      (Monado.clients rt).2 = .error (rt.numberClients).1) ∧
    (rt.updateClientList = .Success → (rt.numberClients).1 = .Success →
      i < (rt.numberClients).2 →
      (∀ j, j < i → (rt.clientIdAtIndex j).1 = .Success) →
      (rt.clientIdAtIndex i).1 ≠ .Success →
      (Monado.clients rt).2 = .error (rt.clientIdAtIndex i).1) ∧
    ((rt.deviceCount).1 ≠ .Success →
      (Monado.devices rt).2 = .error (rt.deviceCount).1) ∧
    ((rt.deviceCount).1 = .Success → i < (rt.deviceCount).2 →
      (∀ j, j < i →
        (rt.deviceInfo j).1 = .Success ∧ validUtf8 (rt.deviceInfo j).2.2 = true) →
      (rt.deviceInfo i).1 ≠ .Success →
      (Monado.devices rt).2 = .error (rt.deviceInfo i).1) := by
  refine ⟨?_, ?_, ?_, ?_, ?_⟩
  · intro hupd
    simp [Monado.clients, to_result_error hupd]
  · intro hupd hcnt
    have h1 : rt.updateClientList.to_result = .ok () := by rw [hupd]; rfl
    simp [Monado.clients, h1, to_result_error hcnt]
  · intro hupd hcnt hiN hok hfail
    have h1 : rt.updateClientList.to_result = .ok () := by rw [hupd]; rfl
    have h2 : (rt.numberClients).1.to_result = .ok () := by rw [hcnt]; rfl
    have hloop := clientsLoop_fail rt (rt.numberClients).2 0 i (Nat.zero_le i)
      (by omega) (fun j _ hj => hok j hj) hfail
    rw [← List.range_eq_range'] at hloop
    simp [Monado.clients, h1, h2, hloop]
  · intro hcnt
    simp [Monado.devices, to_result_error hcnt]
  · intro hcnt hiN hok hfail
    have h1 : (rt.deviceCount).1.to_result = .ok () := by rw [hcnt]; rfl
    have hloop := devicesLoop_fail rt (rt.deviceCount).2 0 i (Nat.zero_le i)
      (by omega) (fun j _ hj => hok j hj) hfail
    rw [← List.range_eq_range'] at hloop
    simp [Monado.devices, h1, hloop]

/-- Witness for C4 on concrete runtimes exercising all five first-failure
positions: refresh, client count, index lookup at 1, device count, and
device info at 1. -/
theorem enumeration_aborts_on_failure_witness :
    (Monado.clients rtUpdFail).2 = .error .ErrorConnectingFailed ∧
    (Monado.clients rtCntFail).2 = .error .ErrorOperationFailed ∧
    (Monado.clients rtIdxFail).2 = .error .ErrorOperationFailed ∧
    (Monado.devices rtUpdFail).2 = .error .ErrorInvalidValue ∧
    (Monado.devices rtIdxFail).2 = .error .ErrorConnectingFailed := by
  refine ⟨?_, ?_, ?_, ?_, ?_⟩
  · exact (enumeration_aborts_on_failure rtUpdFail 0).1 (by decide)
  · exact (enumeration_aborts_on_failure rtCntFail 0).2.1 rfl (by decide)
  · exact (enumeration_aborts_on_failure rtIdxFail 1).2.2.1 rfl rfl (by decide)
      (fun j hj => by have hj0 : j = 0 := by omega
                      subst hj0; rfl)
      (by decide)
  · exact (enumeration_aborts_on_failure rtUpdFail 0).2.2.2.1 (by decide)
  · exact (enumeration_aborts_on_failure rtIdxFail 1).2.2.2.2 rfl (by decide)
      (fun j hj => by have hj0 : j = 0 := by omega
                      subst hj0; exact ⟨rfl, rfl⟩)
      (by decide)

/-- Counterexample for C5: the unrecognized code -5 is not mapped to
ErrorOperationFailed; it has no representation at all in the MndResult
enum (reading it would be undefined behaviour, not a defined mapping). -/
theorem ofInt_unrecognized_not_operation_failed :
    MndResult.ofInt (-5) ≠ some MndResult.ErrorOperationFailed := by
  decide

/-- Claim C5 (amended): 0 maps to Success and -1..-4 to their respective
errors, which to_result turns into Ok(()) for Success and Err(self)
otherwise; any other integer has no defined mapping (None), rather than
being treated as ErrorOperationFailed. -/
theorem result_code_mapping :
    MndResult.ofInt 0 = some .Success ∧
    MndResult.ofInt (-1) = some .ErrorInvalidVersion ∧
    MndResult.ofInt (-2) = some .ErrorInvalidValue ∧
    MndResult.ofInt (-3) = some .ErrorConnectingFailed ∧
    MndResult.ofInt (-4) = some .ErrorOperationFailed ∧
    (∀ z : Int, z ≠ 0 → z ≠ -1 → z ≠ -2 → z ≠ -3 → z ≠ -4 →
      MndResult.ofInt z = none) ∧
    MndResult.Success.to_result = .ok () ∧
    (∀ r : MndResult, r ≠ .Success → r.to_result = .error r) := by
  refine ⟨rfl, rfl, rfl, rfl, rfl, ?_, rfl, ?_⟩
  · intro z h0 h1 h2 h3 h4
    simp [MndResult.ofInt, h0, h1, h2, h3, h4]
  · intro r h
    simp [MndResult.to_result, h]

/-- Witness for C5 at the concrete unrecognized code -7 and the concrete
error ErrorInvalidValue. -/
theorem result_code_mapping_witness :
    MndResult.ofInt (-7) = none ∧
    MndResult.ErrorInvalidValue.to_result = .error .ErrorInvalidValue :=
  ⟨result_code_mapping.2.2.2.2.2.1 (-7) (by decide) (by decide) (by decide)
      (by decide) (by decide),
   result_code_mapping.2.2.2.2.2.2.2 .ErrorInvalidValue (by decide)⟩

/-- Claim C6: set_io_active reads the client state and issues the toggle
command only when the io-active flag differs from the requested value
(returning success with no toggle when it already matches); consequently,
against the interference-free runtime, two immediately successive
set_io_active calls with the same requested value issue at most one toggle
in total. -/
theorem set_io_active_conditional_toggle :
    (∀ (rt : Runtime) (c : Client) (b : Bool),
      (rt.clientState c.id).1 = .Success →
      (containsFlag (rt.clientState c.id).2 ClientIoActive = b →
        Client.set_io_active rt c b = ([Call.getClientState c.id], .ok ())) ∧
      (containsFlag (rt.clientState c.id).2 ClientIoActive ≠ b →
        (Client.set_io_active rt c b).1 =
          [Call.getClientState c.id, Call.toggleClientIoActive c.id])) ∧
    (∀ (σ : Nat) (c : Client) (b : Bool),
      ioToggleCount σ c b + ioToggleCount (ioNextState σ b) c b ≤ 1) := by
  constructor
  · intro rt c b hok
    have h1 : (rt.clientState c.id).1.to_result = .ok () := by rw [hok]; rfl
    constructor
    · intro heq
      simp [Client.set_io_active, Client.state, h1, heq]
    · intro hne
      simp [Client.set_io_active, Client.state, h1, hne]
  · intro σ c b
    cases hcb : containsFlag σ ClientIoActive <;> cases b <;>
      simp [ioToggleCount, ioNextState, Client.set_io_active, Client.state,
        rtOfState, hcb, containsFlag_xor_bit5, to_result_success]

/-- Witness for C6: in state 0 requesting false issues no toggle, and two
successive requests for true issue at most one toggle. -/
theorem set_io_active_conditional_toggle_witness :
    Client.set_io_active (rtOfState 0) ⟨0⟩ false = ([Call.getClientState 0], .ok ()) ∧
    ioToggleCount 0 ⟨0⟩ true + ioToggleCount (ioNextState 0 true) ⟨0⟩ true ≤ 1 :=
  ⟨(set_io_active_conditional_toggle.1 (rtOfState 0) ⟨0⟩ false rfl).1 (by decide),
   set_io_active_conditional_toggle.2 0 ⟨0⟩ true⟩

/-- Claim C7: device_from_role first resolves the role name to a device id
and only then fetches the info of that device (in that call order); on success
it returns a Device carrying the fetched id and name, it propagates
ErrorOperationFailed when the info call at the resolved (wrapped) id fails
that way — the encoding of "no device maps to this role" — and it fails
with ErrorInvalidValue when the returned name is not valid UTF-8. -/
theorem device_from_role_resolves (rt : Runtime) (roleName : List Nat) (d : Int)
    (hnul : 0 ∉ roleName)
    (hrole : rt.deviceFromRole roleName = (.Success, d)) :
    ((rt.deviceInfo (Monado.intToU32 d)).1 = .Success →
      Monado.device_from_role rt roleName =
        some ([Call.getDeviceFromRole roleName, Call.getDeviceInfo (Monado.intToU32 d)],
          if validUtf8 (rt.deviceInfo (Monado.intToU32 d)).2.2 then
            .ok ⟨(rt.deviceInfo (Monado.intToU32 d)).2.1,
                 (rt.deviceInfo (Monado.intToU32 d)).2.2⟩
          else .error .ErrorInvalidValue)) ∧
    ((rt.deviceInfo (Monado.intToU32 d)).1 = .ErrorOperationFailed →
      Monado.device_from_role rt roleName =
        some ([Call.getDeviceFromRole roleName, Call.getDeviceInfo (Monado.intToU32 d)],
          .error .ErrorOperationFailed)) := by
  have h1 : (rt.deviceFromRole roleName).1.to_result = .ok () := by rw [hrole]; rfl
  have h2 : (rt.deviceFromRole roleName).2 = d := by rw [hrole]
  constructor
  · intro hinfo
    have hi : (rt.deviceInfo (Monado.intToU32 d)).1.to_result = .ok () := by
      rw [hinfo]; rfl
    simp [Monado.device_from_role, cstringNew, hnul, h1, h2, hi]
  · intro hinfo
    have hi : (rt.deviceInfo (Monado.intToU32 d)).1.to_result =
        .error .ErrorOperationFailed := by rw [hinfo]; rfl
    simp [Monado.device_from_role, cstringNew, hnul, h1, h2, hi]

/-- Witness for C7: the role "head" resolves to the device named "HMD-0"
with id 5, and the unmapped role "tail" fails with ErrorOperationFailed. -/
theorem device_from_role_resolves_witness :
    Monado.device_from_role rtRoles [104, 101, 97, 100] =
      some ([Call.getDeviceFromRole [104, 101, 97, 100], Call.getDeviceInfo 0],
        .ok ⟨5, [72, 77, 68, 45, 48]⟩) ∧
    Monado.device_from_role rtRoles [116, 97, 105, 108] =
      some ([Call.getDeviceFromRole [116, 97, 105, 108],
             Call.getDeviceInfo (Monado.intToU32 (-1))],
        .error .ErrorOperationFailed) :=
  ⟨(device_from_role_resolves rtRoles [104, 101, 97, 100] 0 (by decide) rfl).1 rfl,
   (device_from_role_resolves rtRoles [116, 97, 105, 108] (-1) (by decide) rfl).2 rfl⟩

/-- Claim C8: when the runtime reports a client name whose bytes are not
valid UTF-8, Client::name fails with ErrorInvalidValue (never a lossy
conversion); when the bytes are valid, it returns exactly those bytes as
the owned string. -/
theorem name_requires_valid_utf8 (rt : Runtime) (c : Client)
    (hok : (rt.clientName c.id).1 = .Success) :
    (validUtf8 (rt.clientName c.id).2 = false →
      (Client.name rt c).2 = .error .ErrorInvalidValue) ∧
    (validUtf8 (rt.clientName c.id).2 = true →
      (Client.name rt c).2 = .ok (rt.clientName c.id).2) := by
  have h1 : (rt.clientName c.id).1.to_result = .ok () := by rw [hok]; rfl
  constructor
  · intro hv
    simp [Client.name, h1, hv]
  · intro hv
    simp [Client.name, h1, hv]

/-- Witness for C8: the byte 0xFF is rejected with ErrorInvalidValue, the
ASCII name "hi" is returned as-is. -/
theorem name_requires_valid_utf8_witness :
    (Client.name rtIdxFail ⟨0⟩).2 = .error .ErrorInvalidValue ∧
    (Client.name rtIdxFail ⟨1⟩).2 = .ok [104, 105] :=
  ⟨(name_requires_valid_utf8 rtIdxFail ⟨0⟩ rfl).1 rfl,
   (name_requires_valid_utf8 rtIdxFail ⟨1⟩ rfl).2 rfl⟩

/-- Claim C9: Client::state returns a flag set whose raw bits are exactly
the u32 the runtime wrote — no bit pattern is rejected and unknown bits are
preserved — and the six documented flags read back from bit positions 0..5
(values 1, 2, 4, 8, 16, 32). -/
theorem state_preserves_raw_bits (rt : Runtime) (c : Client)
    (hok : (rt.clientState c.id).1 = .Success) :
    (Client.state rt c).2 = .ok ((rt.clientState c.id).2) ∧
    (∀ v : Nat,
      containsFlag v ClientPrimaryApp = v.testBit 0 ∧
      containsFlag v ClientSessionActive = v.testBit 1 ∧
      containsFlag v ClientSessionVisible = v.testBit 2 ∧
      containsFlag v ClientSessionFocused = v.testBit 3 ∧
      containsFlag v ClientSessionOverlay = v.testBit 4 ∧
      containsFlag v ClientIoActive = v.testBit 5) := by
  constructor
  · have h1 : (rt.clientState c.id).1.to_result = .ok () := by rw [hok]; rfl
    simp [Client.state, h1]
  · intro v
    exact ⟨containsFlag_two_pow v 0, containsFlag_two_pow v 1, containsFlag_two_pow v 2,
           containsFlag_two_pow v 3, containsFlag_two_pow v 4, containsFlag_two_pow v 5⟩

/-- Witness for C9: the all-ones 32-bit pattern 4294967295 is returned
bit-for-bit, and the io-active flag of 37 reads from bit 5. -/
theorem state_preserves_raw_bits_witness :
    (Client.state (rtOfState 4294967295) ⟨0⟩).2 = .ok 4294967295 ∧
    containsFlag 37 ClientIoActive = Nat.testBit 37 5 :=
  ⟨(state_preserves_raw_bits (rtOfState 4294967295) ⟨0⟩ rfl).1,
   ((state_preserves_raw_bits (rtOfState 4294967295) ⟨0⟩ rfl).2 37).2.2.2.2.2⟩

/-- Claim C10: device_from_role panics (models as none, from
CString::new(...).unwrap()) exactly when the role name contains an interior
NUL byte; for role names without one the conversion never panics. -/
theorem device_from_role_nul_panics (rt : Runtime) (roleName : List Nat) :
    (Monado.device_from_role rt roleName = none ↔ 0 ∈ roleName) ∧
    (cstringNew roleName = none ↔ 0 ∈ roleName) := by
  have hne : 0 ∉ roleName → Monado.device_from_role rt roleName ≠ none := by
    intro hn
    cases h1 : (rt.deviceFromRole roleName).1.to_result with
    | error e => simp [Monado.device_from_role, cstringNew, hn, h1]
    | ok u =>
      cases h2 : (rt.deviceInfo (Monado.intToU32 (rt.deviceFromRole roleName).2)).1.to_result with
      | error e => simp [Monado.device_from_role, cstringNew, hn, h1, h2]
      | ok v => simp [Monado.device_from_role, cstringNew, hn, h1, h2]
  constructor
  · constructor
    · intro h
      by_contra hn
      exact hne hn h
    · intro h
      simp [Monado.device_from_role, cstringNew, h]
  · constructor
    · intro h
      by_contra hn
      simp [cstringNew, hn] at h
    · intro h
      simp [cstringNew, h]

end Libmonado
